import Mathlib

/-!
Shallow embedding of the core data-plane logic of the `ms-node-api-gw`
API gateway (circuit breaker classification, retry predicate, upstream
health monitor, load balancer, proxy circuit gating, plugin loader and
the central-auth plugin), together with theorems settling the frozen
claims about its specification.

Each definition is translated from the JavaScript source file named in
its doc comment.  JavaScript values that can be `undefined`/`null` are
modelled with `Option` or with the `JsVal` sum type; header bags are
association lists; network effects are modelled by passing the outcome
of the I/O as an explicit parameter.
-/

namespace Gateway

/-- Model of a JavaScript value in the positions where the gateway code
inspects dynamic types (`typeof x !== 'string'`, `x === null`, ...). -/
inductive JsVal where
  | str (s : String)
  | num (n : Int)
  | bool (b : Bool)
  | null
  | undefined
deriving DecidableEq, Repr

/-- `String(v)` for the `JsVal` values the auth plugin can meet in
`data.userId` (numbers print in decimal, strings print themselves). -/
def jsString : JsVal → String
  | .str s => s
  | .num n => toString n
  | .bool b => if b then "true" else "false"
  | .null => "null"
  | .undefined => "undefined"

/-- `hay` starts with `needle` (character lists). -/
def charsStartWith : List Char → List Char → Bool
  | _, [] => true
  | [], _ :: _ => false
  | h :: hs, n :: ns => h = n && charsStartWith hs ns

/-- `needle` occurs as a contiguous run inside `hay` (character lists). -/
def charsContain (needle : List Char) : List Char → Bool
  | [] => charsStartWith [] needle
  | c :: hs => charsStartWith (c :: hs) needle || charsContain needle hs

/-- JavaScript `hay.includes(needle)` on strings. -/
def strIncludes (hay needle : String) : Bool :=
  charsContain needle.data hay.data

/-! ## Circuit breaker classification — `src/lib/circuitBreaker.js` -/

/-- The error object shapes `recordFailure` inspects: `error.code`,
`error.status`, `error.statusCode` (each possibly absent). -/
structure JsError where
  code : Option String
  status : Option Int
  statusCode : Option Int
deriving DecidableEq, Repr

/-- `networkErrors` list inside `CircuitBreakerManager.recordFailure`. -/
def networkErrors : List String :=
  ["ECONNRESET", "ETIMEDOUT", "ECONNREFUSED", "ENOTFOUND", "ECONNABORTED"]

/-- `error.code && networkErrors.includes(error.code)` (an absent or
empty code is falsy, and the empty string is not in the list anyway). -/
def isNetworkError (e : JsError) : Bool :=
  match e.code with
  | some c => c ≠ "" && networkErrors.contains c
  | none => false

/-- `error.status >= 500 || error.statusCode >= 500` (comparison with
`undefined` is false in JavaScript). -/
def isServerError (e : JsError) : Bool :=
  (match e.status with | some s => s ≥ 500 | none => false) ||
  (match e.statusCode with | some s => s ≥ 500 | none => false)

/-- Whether `recordFailure(upstreamUrl, error)` emits a `failure` event
on the breaker (given the breaker exists): the body of the
`if (isNetworkError || isServerError)` guard. -/
def recordFailureCounts (e : JsError) : Bool :=
  isNetworkError e || isServerError e

/-- Breaker signal the proxy sends when an upstream response arrives. -/
inductive BreakerSignal where
  | success
  | failure
deriving DecidableEq, Repr

/-- `onProxyRes` in `src/lib/routeBuilder.js`: statuses `< 500` record a
breaker success, statuses `>= 500` record a failure via
`recordFailure(upstream, { status: proxyRes.statusCode })`. -/
def onProxyResSignal (statusCode : Int) : BreakerSignal :=
  if statusCode < 500 then .success else .failure

/-! ## Retry engine — `src/lib/retry.js` and `src/lib/config/defaults.js` -/

/-- `config.retry.retryableCodes` from `src/lib/config/defaults.js`. -/
def retryableCodes : List String :=
  ["ECONNRESET", "ETIMEDOUT", "ECONNREFUSED", "ENOTFOUND"]

/-- The error object shape `_isRetryable` inspects: `error.code` and
`error.message` (each possibly absent). -/
structure RetryError where
  code : Option String
  message : Option String
deriving DecidableEq, Repr

/-- `RetryManager._isRetryable(error, retryableErrors)`:
`if (!error) return false; return retryableErrors.some(code =>
error.code === code || error.message?.includes(code))`. -/
def isRetryable (error : Option RetryError) (retryableErrors : List String) : Bool :=
  match error with
  | none => false
  | some e =>
    retryableErrors.any fun code =>
      e.code = some code ||
      (match e.message with
       | some m => strIncludes m code
       | none => false)

/-! ## Upstream health monitor — `src/lib/upstreamHealth.js` -/

/-- The per-upstream record kept in `this.healthStatus` (the
`lastCheck` timestamp is not modelled: no claim mentions it and it is
wall-clock time). -/
structure HealthStatus where
  healthy : Bool
  consecutiveFailures : Nat
  consecutiveSuccesses : Nat
deriving DecidableEq, Repr

/-- The record created when an upstream has no entry yet
(optimistic `healthy: true`). -/
def initialHealthStatus : HealthStatus :=
  { healthy := true, consecutiveFailures := 0, consecutiveSuccesses := 0 }

/-- `UpstreamHealthChecker.updateHealthStatus` applied to the current
record of one upstream and a probe outcome. -/
def updateHealthStatus (unhealthyThreshold healthyThreshold : Nat)
    (current : HealthStatus) (isHealthy : Bool) : HealthStatus :=
  if isHealthy then
    let next := { current with
      consecutiveSuccesses := current.consecutiveSuccesses + 1,
      consecutiveFailures := 0 }
    if next.consecutiveSuccesses ≥ healthyThreshold then
      { next with healthy := true }
    else next
  else
    let next := { current with
      consecutiveFailures := current.consecutiveFailures + 1,
      consecutiveSuccesses := 0 }
    if next.consecutiveFailures ≥ unhealthyThreshold then
      { next with healthy := false }
    else next

/-- The record after a sequence of probe outcomes starting from a fresh
entry (the map initially has no entry, so the first update starts from
`initialHealthStatus`). -/
def runUpdates (unhealthyThreshold healthyThreshold : Nat)
    (probes : List Bool) : HealthStatus :=
  probes.foldl (updateHealthStatus unhealthyThreshold healthyThreshold)
    initialHealthStatus

/-- Result of the HTTP GET issued by a health probe. -/
inductive HttpResult where
  | response (status : Int)
  | transportError
deriving DecidableEq, Repr

/-- axios promise outcome under a `validateStatus` predicate: a
delivered response whose status fails `validateStatus` is raised as an
error, as is any transport error. -/
def axiosOutcome (validateStatus : Int → Bool) (r : HttpResult) : Except Unit Int :=
  match r with
  | .response s => if validateStatus s then .ok s else .error ()
  | .transportError => .error ()

/-- `UpstreamHealthChecker.checkHealth`: issues the GET with
`validateStatus: (status) => status < 500`; on a delivered response the
probe is healthy iff `status >= 200 && status < 500`; any raised error
is caught and counts as unhealthy. -/
def checkHealth (r : HttpResult) : Bool :=
  match axiosOutcome (fun s => s < 500) r with
  | .ok s => 200 ≤ s && s < 500
  | .error _ => false

/-- `UpstreamHealthChecker._getHealthUrl` when the upstream URL parses:
`url.origin` concatenated with the custom path if one was registered,
else `/health`. -/
def getHealthUrl (origin : String) (customPath : Option String) : String :=
  origin ++ customPath.getD "/health"

/-- `UpstreamHealthChecker.isHealthy`: look the upstream up in the
health map; an absent entry is optimistically healthy. -/
def isHealthyQuery (healthStatus : List (String × HealthStatus)) (url : String) : Bool :=
  match healthStatus.find? (fun p => p.1 = url) with
  | some p => p.2.healthy
  | none => true

/-! ## Load balancer — `src/lib/loadBalancer.js` -/

/-- `LoadBalancer.selectUpstream(upstreams, strategy, state)`, with the
per-upstream health query (`upstreamHealthChecker.isHealthy`) passed in
as `isHealthyF`, the round-robin cursor `state.index` passed in as
`index`, and `Math.floor(Math.random() * n)` modelled as `rand % n`.
Returns the selection (possibly null) and the updated cursor. -/
def selectUpstream (isHealthyF : String → Bool) (upstreams : List String)
    (strategy : String) (index rand : Nat) : Option String × Nat :=
  if upstreams.length = 0 then (none, index)
  else
    let candidates :=
      if strategy = "health_aware" then
        let healthy := upstreams.filter isHealthyF
        if healthy.length = 0 then upstreams else healthy
      else upstreams
    if candidates.length = 0 then (none, index)
    else if strategy = "round_robin" then
      (candidates[index % candidates.length]?, (index + 1) % candidates.length)
    else if strategy = "random" then
      (candidates[rand % candidates.length]?, index)
    else if strategy = "health_aware" then
      (candidates[index % candidates.length]?, (index + 1) % candidates.length)
    else
      (candidates[0]?, index)

/-- `LoadBalancer.parseUpstreams(upstreamConfig)`: a string becomes a
one-element list, an array keeps its string entries, everything else
yields the empty list.  Arrays are modelled as `List JsVal`. -/
def parseUpstreams (upstreamConfig : JsVal ⊕ List JsVal) : List String :=
  match upstreamConfig with
  | .inl (.str s) => [s]
  | .inl _ => []
  | .inr arr => arr.filterMap fun v => match v with | .str s => some s | _ => none

/-! ## Proxy circuit gating — `createEnterpriseProxy`/`tryProxy` in
`src/lib/routeBuilder.js` -/

/-- Outcome of one run of `tryProxy` up to the point where it either
writes a response without contacting any upstream or hands the request
to `createProxyMiddleware` (the network I/O). -/
inductive ProxyOutcome where
  | respond (status : Nat) (error message : String)
  | forward (upstream : String) (attempt : Nat)
deriving DecidableEq, Repr

/-- The selection step at the top of `tryProxy`: filter out upstreams
whose breaker is open, select from the filtered list when it is
non-empty, else from the full list. -/
def trySelect (isOpen isHealthyF : String → Bool) (strategy : String)
    (upstreamList : List String) (index rand : Nat) : Option String × Nat :=
  let availableUpstreams := upstreamList.filter fun u => !(isOpen u)
  if availableUpstreams.length > 0 then
    selectUpstream isHealthyF availableUpstreams strategy index rand
  else
    selectUpstream isHealthyF upstreamList strategy index rand

/-- The body of `tryProxy(upstreamList, currentAttempt)` up to the
forward decision: `isOpen` is a snapshot of
`circuitBreakerManager.isOpen`, `isHealthyF` of the health query,
`rands n` models the random draw of attempt `n`.  A selected upstream
with an open breaker retries on the remaining upstreams while
`currentAttempt < maxRetries && upstreamList.length > 1`, else answers
503 with the circuit-breaker-open message; a selected upstream with a
closed breaker is forwarded to. -/
def tryProxy (isOpen isHealthyF : String → Bool) (strategy : String)
    (rands : Nat → Nat) (maxRetries : Nat) :
    List String → Nat → Nat → ProxyOutcome
  | upstreamList, index, currentAttempt =>
    match trySelect isOpen isHealthyF strategy upstreamList index (rands currentAttempt) with
    | (none, _) => .respond 503 "Service Unavailable" "No upstream services available"
    | (some selected, index2) =>
      if isOpen selected then
        if h : currentAttempt < maxRetries ∧ 1 < upstreamList.length then
          tryProxy isOpen isHealthyF strategy rands maxRetries
            (upstreamList.filter fun u => u ≠ selected) index2 (currentAttempt + 1)
        else
          .respond 503 "Service Unavailable"
            ("Upstream " ++ selected ++ " is unavailable (circuit breaker open)")
      else
        .forward selected currentAttempt
termination_by _ _ currentAttempt => maxRetries - currentAttempt
decreasing_by simp_wf; omega

/-! ## Plugin loader — `src/lib/pluginLoader.js` -/

/-- Filesystem-touching steps `loadPlugin` may take after validation. -/
inductive FsAction where
  | resolvePath (p : String)
  | requireModule (p : String)
deriving DecidableEq, Repr

/-- Outcome of `require(pluginPath)` followed by the two callability
checks: the module may be missing, throw on load, or export a value;
`factoryIsFunction` reflects `typeof pluginFactory === 'function'` and
`middlewareIsFunction` reflects the check on `pluginFactory(config)`. -/
inductive RequireResult where
  | notFound
  | loadError
  | exported (factoryIsFunction middlewareIsFunction : Bool)
deriving DecidableEq, Repr

/-- `path.join(PLUGINS_DIR, pluginName + '.js')` with the plugins
directory abstracted to its path string. -/
def pluginPath (pluginsDir name : String) : String :=
  pluginsDir ++ "/" ++ name ++ ".js"

/-- `loadPlugin(pluginName, ...)`: name validation, then path
resolution and `require`.  `requireFs` is the filesystem's answer at
the resolved path; the returned list records which filesystem actions
were taken, and `some ()` stands for a returned middleware function. -/
def loadPlugin (pluginsDir : String) (requireFs : String → RequireResult)
    (pluginName : JsVal) : Option Unit × List FsAction :=
  match pluginName with
  | .str s =>
    if s = "" then (none, [])
    else if strIncludes s ".." || strIncludes s "/" || strIncludes s "\\" then
      (none, [])
    else
      let p := pluginPath pluginsDir s
      let actions := [FsAction.resolvePath p, FsAction.requireModule p]
      match requireFs p with
      | .notFound => (none, actions)
      | .loadError => (none, actions)
      | .exported factoryIsFunction middlewareIsFunction =>
        (if factoryIsFunction && middlewareIsFunction then some () else none, actions)
  | _ => (none, [])

/-- The claim's characterization of a rejected plugin name: empty, not
a string, or containing `..`, `/`, or `\`. -/
def isRejectedName (v : JsVal) : Bool :=
  match v with
  | .str s => s = "" || strIncludes s ".." || strIncludes s "/" || strIncludes s "\\"
  | _ => true

/-! ## Central-auth plugin — `src/plugins/central-auth.js` -/

/-- Request-header bag: an association list with JavaScript-object
semantics (one value per exact key). -/
def getHeader (h : List (String × String)) (k : String) : Option String :=
  (h.find? fun p => p.1 = k).map (·.2)

/-- `req.headers[k] = v`. -/
def setHeader (h : List (String × String)) (k v : String) : List (String × String) :=
  (k, v) :: h.filter fun p => p.1 ≠ k

/-- `delete req.headers[k]`. -/
def deleteHeader (h : List (String × String)) (k : String) : List (String × String) :=
  h.filter fun p => p.1 ≠ k

/-- The fields of the auth service's reply that the middleware reads:
the HTTP status, `data.data.verifyStatus` and `data.data.userId`
(absent paths collapse to `undefined`). -/
structure AuthResponse where
  status : Int
  verifyStatus : JsVal
  userId : JsVal
deriving DecidableEq, Repr

/-- Outcome of the axios POST to the verify endpoint: a delivered
response (any status `< 500`, per the client's `validateStatus`) or a
raised error carrying `error.code`. -/
inductive AuthCallResult where
  | response (r : AuthResponse)
  | thrown (code : Option String)
deriving DecidableEq, Repr

/-- What the middleware does with the client request. -/
inductive MwOutcome where
  | next (headers : List (String × String))
  | respond (status : Int)
deriving DecidableEq, Repr

/-- The central-auth middleware for one request, given the request
headers and the outcome of the auth-service call (only reached when an
`Authorization` header is present).  On a 2xx with
`verifyStatus === true` it sets `X-User-Id` to `String(userId)` when
`userId` is neither `undefined` nor `null`, deletes the
`authorization`/`Authorization` headers and continues; on any other
delivered response it replies with the response's status clamped into
`[400, 500)` (else 401); on a thrown error it replies 502. -/
def centralAuthMiddleware (enabled : Bool) (headers : List (String × String))
    (call : AuthCallResult) : MwOutcome :=
  if !enabled then .next headers
  else
    match (getHeader headers "authorization").or (getHeader headers "Authorization") with
    | none => .respond 401
    | some _ =>
      match call with
      | .response r =>
        if 200 ≤ r.status ∧ r.status < 300 ∧ r.verifyStatus = .bool true then
          let h1 :=
            if r.userId ≠ .undefined ∧ r.userId ≠ .null then
              setHeader headers "X-User-Id" (jsString r.userId)
            else headers
          .next (deleteHeader (deleteHeader h1 "authorization") "Authorization")
        else
          .respond (if 400 ≤ r.status ∧ r.status < 500 then r.status else 401)
      | .thrown _ => .respond 502

/-! ## Theorems -/

/-- C2: `recordFailure(upstream, err)` increments the breaker's failure
statistics iff `err` carries a transport-error code in
{ECONNRESET, ETIMEDOUT, ECONNREFUSED, ENOTFOUND, ECONNABORTED} or an
HTTP status (on `err.status` or `err.statusCode`) ≥ 500; and every
upstream response with status in [400, 500) records a breaker success,
never a failure. -/
theorem recordFailure_classification (e : JsError) (s : Int) :
    (recordFailureCounts e = true ↔
      (∃ c, e.code = some c ∧ c ∈ networkErrors) ∨
      (∃ n, (e.status = some n ∨ e.statusCode = some n) ∧ 500 ≤ n))
    ∧ (400 ≤ s → s < 500 → onProxyResSignal s = .success) := by
  obtain ⟨code, status, statusCode⟩ := e
  refine ⟨?_, ?_⟩
  · have hnet : isNetworkError ⟨code, status, statusCode⟩ = true ↔
        ∃ c, code = some c ∧ c ∈ networkErrors := by
      cases code with
      | none => simp [isNetworkError]
      | some c =>
        simp only [isNetworkError, Bool.and_eq_true, ne_eq, decide_eq_true_eq]
        constructor
        · rintro ⟨-, hc⟩
          exact ⟨c, rfl, by simpa using hc⟩
        · rintro ⟨c', hc', hmem⟩
          obtain rfl : c' = c := by injection hc'.symm
          refine ⟨?_, by simpa using hmem⟩
          rintro rfl
          simp [networkErrors] at hmem
    have hsrv : isServerError ⟨code, status, statusCode⟩ = true ↔
        ∃ n, (status = some n ∨ statusCode = some n) ∧ 500 ≤ n := by
      cases status with
      | none =>
        cases statusCode with
        | none => simp [isServerError]
        | some b =>
          simp only [isServerError, Bool.false_or, decide_eq_true_eq]
          constructor
          · intro h; exact ⟨b, Or.inr rfl, h⟩
          · rintro ⟨n, (hn | hn), h500⟩
            · exact absurd hn (by simp)
            · injection hn with hn; omega
      | some a =>
        cases statusCode with
        | none =>
          simp only [isServerError, Bool.or_false, decide_eq_true_eq]
          constructor
          · intro h; exact ⟨a, Or.inl rfl, h⟩
          · rintro ⟨n, (hn | hn), h500⟩
            · injection hn with hn; omega
            · exact absurd hn (by simp)
        | some b =>
          simp only [isServerError, Bool.or_eq_true, decide_eq_true_eq]
          constructor
          · rintro (h | h)
            · exact ⟨a, Or.inl rfl, h⟩
            · exact ⟨b, Or.inr rfl, h⟩
          · rintro ⟨n, (hn | hn), h500⟩
            · left; injection hn with hn; omega
            · right; injection hn with hn; omega
    simp only [recordFailureCounts, Bool.or_eq_true]
    rw [hnet, hsrv]
  · intro h1 h2
    simp only [onProxyResSignal, if_pos h2]

/-- Witness for C2 at a concrete transport error and a concrete 4xx
status. -/
theorem recordFailure_classification_witness :
    recordFailureCounts ⟨some "ECONNRESET", none, none⟩ = true ∧
    onProxyResSignal 404 = .success := by
  refine ⟨?_, ?_⟩
  · exact (recordFailure_classification ⟨some "ECONNRESET", none, none⟩ 404).1.mpr
      (Or.inl ⟨"ECONNRESET", rfl, by decide⟩)
  · exact (recordFailure_classification ⟨some "ECONNRESET", none, none⟩ 404).2
      (by decide) (by decide)

/-- C4: a health probe counts as a success exactly when the GET to
`origin + health_probe_path` yields a status in [200, 500) (2xx, 3xx or
4xx); any 5xx and any transport error count as failure.  The probed URL
defaults to `origin ++ "/health"`. -/
theorem checkHealth_classification (r : HttpResult) (origin : String) :
    (checkHealth r = true ↔ ∃ s, r = .response s ∧ 200 ≤ s ∧ s < 500)
    ∧ getHealthUrl origin none = origin ++ "/health" := by
  refine ⟨?_, rfl⟩
  cases r with
  | response s =>
    by_cases h : s < 500 <;> simp [checkHealth, axiosOutcome, h]
  | transportError => simp [checkHealth, axiosOutcome]

/-- C9: after every health-status update, at least one of the two
counters `consecutiveFailures` / `consecutiveSuccesses` is zero. -/
theorem updateHealth_counters_exclusive (ut ht : Nat) (st : HealthStatus) (b : Bool) :
    (updateHealthStatus ut ht st b).consecutiveFailures = 0 ∨
    (updateHealthStatus ut ht st b).consecutiveSuccesses = 0 := by
  cases b <;> simp [updateHealthStatus] <;> split <;> simp

/-- C10: an upstream URL with no recorded health status is reported
healthy by `isHealthy`, so the health-aware filter of the load balancer
keeps any unmonitored upstream in the healthy sublist. -/
theorem isHealthy_unmonitored_true (m : List (String × HealthStatus)) (url : String)
    (upstreams : List String)
    (habsent : m.find? (fun p => p.1 = url) = none) (hmem : url ∈ upstreams) :
    isHealthyQuery m url = true ∧ url ∈ upstreams.filter (isHealthyQuery m) := by
  have h1 : isHealthyQuery m url = true := by simp [isHealthyQuery, habsent]
  exact ⟨h1, List.mem_filter.mpr ⟨hmem, h1⟩⟩

/-- Witness for C10: the empty health map and a singleton upstream
list. -/
theorem isHealthy_unmonitored_true_witness :
    isHealthyQuery [] "http://u:8080" = true ∧
    "http://u:8080" ∈ ["http://u:8080"].filter (isHealthyQuery []) :=
  isHealthy_unmonitored_true [] "http://u:8080" ["http://u:8080"] rfl (by simp)

/-- C8: `loadPlugin` returns no middleware for every plugin name that
is empty, not a string, or contains `..`, `/` or `\`, and does so
before resolving or touching any filesystem path (the action trace is
empty). -/
theorem loadPlugin_rejects_bad_names (pluginsDir : String)
    (requireFs : String → RequireResult) (v : JsVal)
    (h : isRejectedName v = true) :
    loadPlugin pluginsDir requireFs v = (none, []) := by
  cases v with
  | str s =>
    by_cases h0 : s = ""
    · simp [loadPlugin, h0]
    · have h1 : (strIncludes s ".." || strIncludes s "/" || strIncludes s "\\") = true := by
        simpa [isRejectedName, h0] using h
      simp [loadPlugin, h0, h1]
  | num n => rfl
  | bool b => rfl
  | null => rfl
  | undefined => rfl

/-- Witness for C8 at a concrete traversal name. -/
theorem loadPlugin_rejects_bad_names_witness :
    loadPlugin "plugins" (fun _ => RequireResult.notFound) (.str "../evil") = (none, []) :=
  loadPlugin_rejects_bad_names "plugins" (fun _ => RequireResult.notFound)
    (.str "../evil") (by decide)

/-- C6 counterexample: an error whose `code` is `ECONNABORTED` (a
member of the breaker's transport-error set) is NOT accepted by the
retry engine's retryable predicate, because
`config.retry.retryableCodes` omits `ECONNABORTED`. -/
theorem retryable_misses_econnaborted :
    isRetryable (some ⟨some "ECONNABORTED", some "Request aborted"⟩) retryableCodes = false
    ∧ "ECONNABORTED" ∈ networkErrors
    ∧ recordFailureCounts ⟨some "ECONNABORTED", none, none⟩ = true := by
  refine ⟨by decide, by decide, by decide⟩

/-- C6 (amended): the retryable predicate accepts exactly the errors
whose `code` is in retryableCodes = {ECONNRESET, ETIMEDOUT,
ECONNREFUSED, ENOTFOUND} — the breaker's transport set minus
ECONNABORTED — plus any error whose message contains one of those four
codes. -/
theorem retryable_characterization (e : Option RetryError) :
    (isRetryable e retryableCodes = true ↔
      ∃ err, e = some err ∧ ∃ c ∈ retryableCodes,
        (err.code = some c ∨ ∃ m, err.message = some m ∧ strIncludes m c = true))
    ∧ networkErrors = retryableCodes ++ ["ECONNABORTED"] := by
  refine ⟨?_, rfl⟩
  cases e with
  | none => simp [isRetryable]
  | some err =>
    obtain ⟨code, message⟩ := err
    cases message <;> simp [isRetryable, List.any_eq_true]

/-- Helper: closed form of a successful-probe update. -/
theorem updateHealth_true_eq (ut ht : Nat) (st : HealthStatus) :
    updateHealthStatus ut ht st true =
      { healthy := decide (ht ≤ st.consecutiveSuccesses + 1) || st.healthy,
        consecutiveFailures := 0,
        consecutiveSuccesses := st.consecutiveSuccesses + 1 } := by
  simp only [updateHealthStatus, if_true]
  split <;> rename_i hc <;> simp_all

/-- Helper: closed form of a failing-probe update. -/
theorem updateHealth_false_eq (ut ht : Nat) (st : HealthStatus) :
    updateHealthStatus ut ht st false =
      { healthy := !(decide (ut ≤ st.consecutiveFailures + 1)) && st.healthy,
        consecutiveFailures := st.consecutiveFailures + 1,
        consecutiveSuccesses := 0 } := by
  simp only [updateHealthStatus, Bool.false_eq_true, if_false]
  split <;> rename_i hc <;> simp_all

/-- Helper: after any single health update, a record whose flag is
`true` has a failure run strictly below the unhealthy threshold
(regardless of the previous record). -/
theorem updateHealth_failures_lt (ut ht : Nat) (hut : 0 < ut)
    (st : HealthStatus) (b : Bool)
    (hh : (updateHealthStatus ut ht st b).healthy = true) :
    (updateHealthStatus ut ht st b).consecutiveFailures < ut := by
  cases b with
  | true => rw [updateHealth_true_eq]; exact hut
  | false =>
    rw [updateHealth_false_eq] at hh ⊢
    simp only [Bool.and_eq_true, Bool.not_eq_true', decide_eq_false_iff_not] at hh
    show st.consecutiveFailures + 1 < ut
    omega

/-- Helper: the invariant `healthy = true → consecutiveFailures < ut`
is carried through any fold of probe outcomes. -/
theorem foldl_health_invariant (ut ht : Nat) (hut : 0 < ut) (l : List Bool)
    (st : HealthStatus)
    (hst : st.healthy = true → st.consecutiveFailures < ut) :
    (l.foldl (updateHealthStatus ut ht) st).healthy = true →
      (l.foldl (updateHealthStatus ut ht) st).consecutiveFailures < ut := by
  induction l generalizing st with
  | nil => exact hst
  | cons p ps ih =>
    exact ih (updateHealthStatus ut ht st p) (updateHealth_failures_lt ut ht hut st p)

/-- C3: the health flag moves `true → false` only when the consecutive
failure run has reached the unhealthy threshold, `false → true` only
when the consecutive success run has reached the healthy threshold,
and any record reached from the initial (optimistic) one with flag
`true` has `consecutiveFailures < unhealthy_threshold`. -/
theorem health_debounce_transitions (ut ht : Nat) (st : HealthStatus) (b : Bool)
    (probes : List Bool) (hut : 0 < ut) :
    (st.healthy = true → (updateHealthStatus ut ht st b).healthy = false →
      ut ≤ (updateHealthStatus ut ht st b).consecutiveFailures)
    ∧ (st.healthy = false → (updateHealthStatus ut ht st b).healthy = true →
      ht ≤ (updateHealthStatus ut ht st b).consecutiveSuccesses)
    ∧ ((runUpdates ut ht probes).healthy = true →
      (runUpdates ut ht probes).consecutiveFailures < ut) := by
  refine ⟨?_, ?_, ?_⟩
  · intro h1 h2
    cases b with
    | true =>
      rw [updateHealth_true_eq] at h2
      simp [h1] at h2
    | false =>
      rw [updateHealth_false_eq] at h2 ⊢
      simp only [Bool.and_eq_true, Bool.not_eq_true'] at h2
      simp only [h1, and_true, Bool.not_eq_true', decide_eq_false_iff_not] at h2
      by_cases hc : ut ≤ st.consecutiveFailures + 1
      · exact hc
      · simp [hc] at h2
  · intro h1 h2
    cases b with
    | true =>
      rw [updateHealth_true_eq] at h2 ⊢
      simp only [h1, Bool.or_false, decide_eq_true_eq] at h2
      exact h2
    | false =>
      rw [updateHealth_false_eq] at h2
      simp [h1] at h2
  · exact foldl_health_invariant ut ht hut probes initialHealthStatus
      (by intro; simpa [initialHealthStatus] using hut)

/-- Witness for C3 with the default thresholds (3 unhealthy / 1
healthy), a fresh record, a failing probe, and a two-failure probe
history. -/
theorem health_debounce_transitions_witness :
    (initialHealthStatus.healthy = true →
      (updateHealthStatus 3 1 initialHealthStatus false).healthy = false →
      3 ≤ (updateHealthStatus 3 1 initialHealthStatus false).consecutiveFailures)
    ∧ (initialHealthStatus.healthy = false →
      (updateHealthStatus 3 1 initialHealthStatus false).healthy = true →
      1 ≤ (updateHealthStatus 3 1 initialHealthStatus false).consecutiveSuccesses)
    ∧ ((runUpdates 3 1 [false, false]).healthy = true →
      (runUpdates 3 1 [false, false]).consecutiveFailures < 3) :=
  health_debounce_transitions 3 1 initialHealthStatus false [false, false] (by decide)

/-- Helper: a round-robin pick from a non-empty list is a member. -/
theorem getElem?_mod_mem (l : List String) (i : Nat) (hne : l ≠ []) :
    ∃ u, l[i % l.length]? = some u ∧ u ∈ l := by
  have hlen : 0 < l.length := List.length_pos.mpr hne
  have hlt : i % l.length < l.length := Nat.mod_lt i hlen
  exact ⟨l[i % l.length], List.getElem?_eq_getElem hlt, List.getElem_mem hlt⟩

/-- C7: under the `health_aware` strategy with a non-empty candidate
list, the selected upstream exists (never null), is a candidate, and —
whenever at least one candidate is healthy — lies in the healthy
sublist; with no healthy candidate, selection falls back to the full
list. -/
theorem health_aware_selection (f : String → Bool) (ups : List String)
    (i r : Nat) (hne : ups ≠ []) :
    ∃ u, (selectUpstream f ups "health_aware" i r).1 = some u ∧ u ∈ ups ∧
      (ups.filter f ≠ [] → u ∈ ups.filter f) := by
  have hlen : ¬ ups.length = 0 := by simpa [List.length_eq_zero] using hne
  by_cases hf : ups.filter f = []
  · obtain ⟨u, hu, hmem⟩ := getElem?_mod_mem ups i hne
    refine ⟨u, ?_, hmem, fun h => absurd hf h⟩
    simp [selectUpstream, hlen, hf]
    exact hu
  · obtain ⟨u, hu, hmem⟩ := getElem?_mod_mem (ups.filter f) i hf
    refine ⟨u, ?_, List.mem_of_mem_filter hmem, fun _ => hmem⟩
    have hflen : ¬ (ups.filter f).length = 0 := by
      simpa [List.length_eq_zero] using hf
    simp [selectUpstream, hlen, hflen]
    exact hu

/-- Witness for C7: two candidates of which only the second is
healthy; the healthy one is selected. -/
theorem health_aware_selection_witness :
    ∃ u, (selectUpstream (fun s => s = "http://b") ["http://a", "http://b"]
        "health_aware" 0 0).1 = some u ∧ u ∈ ["http://a", "http://b"] ∧
      (["http://a", "http://b"].filter (fun s => s = "http://b") ≠ [] →
        u ∈ ["http://a", "http://b"].filter (fun s => s = "http://b")) :=
  health_aware_selection (fun s => s = "http://b") ["http://a", "http://b"] 0 0
    (by decide)

/-- Helper: a header read finds the head entry when the key matches. -/
theorem getHeader_cons_self (p : String × String) (t : List (String × String))
    (k : String) (hk : p.1 = k) : getHeader (p :: t) k = some p.2 := by
  simp [getHeader, List.find?_cons_of_pos, hk]

/-- Helper: a header read skips a head entry with another key. -/
theorem getHeader_cons_ne (p : String × String) (t : List (String × String))
    (k : String) (hk : ¬ p.1 = k) : getHeader (p :: t) k = getHeader t k := by
  simp [getHeader, List.find?_cons_of_neg, hk]

/-- Helper: reading a deleted key yields nothing. -/
theorem getHeader_deleteHeader_self (h : List (String × String)) (k : String) :
    getHeader (deleteHeader h k) k = none := by
  induction h with
  | nil => rfl
  | cons p t ih =>
    by_cases hp : p.1 = k
    · simpa [deleteHeader, List.filter_cons, hp] using ih
    · rw [show deleteHeader (p :: t) k = p :: deleteHeader t k by
        simp [deleteHeader, List.filter_cons, hp]]
      rw [getHeader_cons_ne p _ k hp]
      exact ih

/-- Helper: deleting another key does not change a read. -/
theorem getHeader_deleteHeader_ne (h : List (String × String)) (k k' : String)
    (hne : k ≠ k') :
    getHeader (deleteHeader h k') k = getHeader h k := by
  induction h with
  | nil => rfl
  | cons p t ih =>
    by_cases hp : p.1 = k'
    · have hpk : ¬ p.1 = k := by rw [hp]; exact fun hh => hne hh.symm
      rw [show deleteHeader (p :: t) k' = deleteHeader t k' by
        simp [deleteHeader, List.filter_cons, hp]]
      rw [ih, getHeader_cons_ne p t k hpk]
    · rw [show deleteHeader (p :: t) k' = p :: deleteHeader t k' by
        simp [deleteHeader, List.filter_cons, hp]]
      by_cases hk : p.1 = k
      · rw [getHeader_cons_self p _ k hk, getHeader_cons_self p t k hk]
      · rw [getHeader_cons_ne p _ k hk, getHeader_cons_ne p t k hk]
        exact ih

/-- Helper: reading a freshly set key yields the set value. -/
theorem getHeader_setHeader_self (h : List (String × String)) (k v : String) :
    getHeader (setHeader h k v) k = some v := by
  simp [getHeader, setHeader, List.find?]

/-- C5: when the auth service replies with a 2xx status and
`data.verifyStatus === true`, the middleware continues (`next`) with
`X-User-Id` set to the string form of `data.userId` (numeric and
string values both accepted) and with both spellings of the
`Authorization` header removed from the request. -/
theorem central_auth_pass (headers : List (String × String)) (r : AuthResponse)
    (auth : String)
    (hauth : ((getHeader headers "authorization").or
      (getHeader headers "Authorization")) = some auth)
    (h2xx : 200 ≤ r.status ∧ r.status < 300)
    (hv : r.verifyStatus = .bool true)
    (huid : (∃ n, r.userId = .num n) ∨ (∃ s, r.userId = .str s)) :
    ∃ h', centralAuthMiddleware true headers (.response r) = .next h' ∧
      getHeader h' "X-User-Id" = some (jsString r.userId) ∧
      getHeader h' "authorization" = none ∧
      getHeader h' "Authorization" = none := by
  have hnn : r.userId ≠ .undefined ∧ r.userId ≠ .null := by
    rcases huid with ⟨n, hn⟩ | ⟨s, hn⟩ <;> simp [hn]
  have hcond : 200 ≤ r.status ∧ r.status < 300 ∧ r.verifyStatus = .bool true :=
    ⟨h2xx.1, h2xx.2, hv⟩
  have hmid : centralAuthMiddleware true headers (.response r)
      = .next (deleteHeader (deleteHeader
          (setHeader headers "X-User-Id" (jsString r.userId))
          "authorization") "Authorization") := by
    simp only [centralAuthMiddleware, Bool.not_true, Bool.false_eq_true, if_false, hauth]
    rw [if_pos hcond, if_pos hnn]
  refine ⟨_, hmid, ?_, ?_, ?_⟩
  · rw [getHeader_deleteHeader_ne _ _ _ (by decide),
      getHeader_deleteHeader_ne _ _ _ (by decide),
      getHeader_setHeader_self]
  · rw [getHeader_deleteHeader_ne _ _ _ (by decide),
      getHeader_deleteHeader_self]
  · rw [getHeader_deleteHeader_self]

/-- Witness for C5: a bearer token in the request, a 200 reply with
`verifyStatus: true` and the numeric userId from the spec's end-to-end
scenario. -/
theorem central_auth_pass_witness :
    ∃ h', centralAuthMiddleware true [("authorization", "Bearer T")]
        (.response ⟨200, .bool true, .num 4408505240⟩) = .next h' ∧
      getHeader h' "X-User-Id" = some (jsString (.num 4408505240)) ∧
      getHeader h' "authorization" = none ∧
      getHeader h' "Authorization" = none :=
  central_auth_pass [("authorization", "Bearer T")]
    ⟨200, .bool true, .num 4408505240⟩ "Bearer T" rfl
    (by constructor <;> decide) rfl (Or.inl ⟨4408505240, rfl⟩)

/-- C1: when `tryProxy` selects an upstream whose circuit breaker is
OPEN and no alternative upstream or retry attempt remains
(`upstreamList.length ≤ 1` or `maxRetries ≤ currentAttempt`), the
request is answered `503 Service Unavailable` with a message containing
"circuit breaker open", and the attempt issues no network I/O (the
outcome is never a `forward`). -/
theorem circuit_open_503 (isOpen isHealthyF : String → Bool) (strategy : String)
    (rands : Nat → Nat) (maxRetries : Nat) (upstreamList : List String)
    (index currentAttempt : Nat) (u : String) (index2 : Nat)
    (hsel : trySelect isOpen isHealthyF strategy upstreamList index
      (rands currentAttempt) = (some u, index2))
    (hopen : isOpen u = true)
    (hlast : upstreamList.length ≤ 1 ∨ maxRetries ≤ currentAttempt) :
    tryProxy isOpen isHealthyF strategy rands maxRetries upstreamList index currentAttempt
      = .respond 503 "Service Unavailable"
          ("Upstream " ++ u ++ " is unavailable (circuit breaker open)")
    ∧ (∃ a b, ("Upstream " ++ u ++ " is unavailable (circuit breaker open)")
        = a ++ "circuit breaker open" ++ b)
    ∧ ∀ v n, tryProxy isOpen isHealthyF strategy rands maxRetries upstreamList
        index currentAttempt ≠ .forward v n := by
  have hstop : ¬ (currentAttempt < maxRetries ∧ 1 < upstreamList.length) := by
    rcases hlast with h | h <;> omega
  have hrun : tryProxy isOpen isHealthyF strategy rands maxRetries upstreamList
      index currentAttempt
      = .respond 503 "Service Unavailable"
          ("Upstream " ++ u ++ " is unavailable (circuit breaker open)") := by
    rw [tryProxy]
    rw [hsel]
    simp only [hopen, if_true, dif_neg hstop]
  refine ⟨hrun, ⟨"Upstream " ++ u ++ " is unavailable (", ")", ?_⟩, ?_⟩
  · have hlit : " is unavailable (circuit breaker open)"
        = " is unavailable (" ++ "circuit breaker open" ++ ")" := rfl
    rw [hlit]
    simp [String.append_assoc]
  · intro v n
    rw [hrun]
    intro hcontra
    exact ProxyOutcome.noConfusion hcontra

/-- Witness for C1: a single upstream whose breaker is open; the first
attempt is answered 503 without any forward. -/
theorem circuit_open_503_witness :
    tryProxy (fun _ => true) (fun _ => true) "health_aware" (fun _ => 0) 3
        ["http://u:8080"] 0 0
      = .respond 503 "Service Unavailable"
          ("Upstream " ++ "http://u:8080" ++ " is unavailable (circuit breaker open)")
    ∧ (∃ a b, ("Upstream " ++ "http://u:8080" ++ " is unavailable (circuit breaker open)")
        = a ++ "circuit breaker open" ++ b)
    ∧ ∀ v n, tryProxy (fun _ => true) (fun _ => true) "health_aware" (fun _ => 0) 3
        ["http://u:8080"] 0 0 ≠ .forward v n :=
  circuit_open_503 (fun _ => true) (fun _ => true) "health_aware" (fun _ => 0) 3
    ["http://u:8080"] 0 0 "http://u:8080" 0 (by decide) rfl (Or.inl (by decide))

end Gateway
